import Mathlib

/-!
# Verification of the diskmon sampling-to-rate pipeline

Shallow embedding of the `disk_monitor` Python package (collector.py,
formatter.py, display.py, monitor.py) and proofs about it.

Modelling conventions:
* Python `int` is `Int` (arbitrary precision, as in Python); counters read
  from the kernel feed are parsed integers.
* Python `float` values (timestamps, intervals, rates, percentages) are
  modelled as exact rationals `Rat`; float division is exact rational
  division.  The `:.1f` presentation format is modelled as exact rational
  rounding to one decimal place (ties rounded up); the claims below concern
  the shape of the output and the unit/threshold selection, which do not
  depend on the last-digit rounding convention.
* A Python `dict` (which preserves insertion order, and on key overwrite
  keeps the original position) is an association list `List (String × α)`
  with insertion modelled by `dictInsert`.
* A raised `ValueError` (and the two distinct `ValueError`s of
  `calculate_io_rates`) is an `Except PyError` result.
-/

namespace DiskMon

/-- Python `s.startswith(p)`: `p` is a prefix of `s` (character-wise).
(Implemented on the character lists so it evaluates by kernel
reduction.) -/
def pyStartsWith (s p : String) : Bool :=
  p.data.isPrefixOf s.data

/-- Python `s[:n]`: the first `n` characters of `s`. -/
def pyTake (s : String) (n : Nat) : String :=
  String.mk (s.data.take n)

/-- `models.IOStats`: I/O statistics for a disk device. -/
structure IOStats where
  device : String
  read_ops : Int
  write_ops : Int
  read_bytes : Int
  write_bytes : Int
  timestamp : Rat
deriving Repr, DecidableEq

/-- `models.IORates`: calculated I/O rates for a disk device. -/
structure IORates where
  device : String
  read_ops_per_sec : Rat
  write_ops_per_sec : Rat
  read_kb_per_sec : Rat
  write_kb_per_sec : Rat
deriving Repr, DecidableEq

/-- `models.DiskUsage`: usage statistics for a mounted disk. -/
structure DiskUsage where
  device : String
  mountpoint : String
  total_bytes : Int
  used_bytes : Int
  available_bytes : Int
  usage_percent : Rat
deriving Repr, DecidableEq

/-- The exceptions the embedded code can raise: the two distinct
`ValueError`s of `MetricsFormatter.calculate_io_rates` (distinguished by
their message) and the `ValueError` raised by `int()` on a non-numeric
string in `collector.get_disk_io_stats`. -/
inductive PyError where
  | invalidInterval   -- ValueError("Interval must be positive")
  | deviceMismatch    -- ValueError("IOStats must be for the same device")
  | valueError        -- ValueError from int(...)
deriving Repr, DecidableEq

/-- `MetricsFormatter.calculate_io_rates` (formatter.py lines 53-81):
checks `interval <= 0` first, then device equality, then returns the
per-second rates. -/
def calculate_io_rates (current previous : IOStats) (interval : Rat) :
    Except PyError IORates :=
  if interval ≤ 0 then
    .error .invalidInterval
  else if current.device ≠ previous.device then
    .error .deviceMismatch
  else
    let read_ops_diff := current.read_ops - previous.read_ops
    let write_ops_diff := current.write_ops - previous.write_ops
    let read_bytes_diff := current.read_bytes - previous.read_bytes
    let write_bytes_diff := current.write_bytes - previous.write_bytes
    .ok { device := current.device
          read_ops_per_sec := (read_ops_diff : Rat) / interval
          write_ops_per_sec := (write_ops_diff : Rat) / interval
          read_kb_per_sec := ((read_bytes_diff : Rat) / interval) / 1024
          write_kb_per_sec := ((write_bytes_diff : Rat) / interval) / 1024 }

/-- One-decimal fixed-point rendering of the nonnegative fraction
`num / den` (`den ≠ 0`), modelling Python's `f"{num / den:.1f}"` with exact
rational arithmetic, ties rounded up. -/
def fmt1 (num den : Nat) : String :=
  let t := (10 * num + den / 2) / den
  toString (t / 10) ++ "." ++ toString (t % 10)

/-- `MetricsFormatter.format_bytes` (formatter.py lines 40-51). -/
def format_bytes (bytes_value : Int) : String :=
  if bytes_value < 1024 then
    toString bytes_value ++ " B"
  else if bytes_value < 1024 ^ 2 then
    fmt1 bytes_value.toNat 1024 ++ " KB"
  else if bytes_value < 1024 ^ 3 then
    fmt1 bytes_value.toNat (1024 ^ 2) ++ " MB"
  else if bytes_value < 1024 ^ 4 then
    fmt1 bytes_value.toNat (1024 ^ 3) ++ " GB"
  else
    fmt1 bytes_value.toNat (1024 ^ 4) ++ " TB"

/-- One-decimal fixed-point rendering of a rational, modelling Python's
`f"{q:.1f}"` with exact rational arithmetic (magnitude rounded to the
nearest tenth, ties up). -/
def fmt1Rat (q : Rat) : String :=
  let sign := if q < 0 then "-" else ""
  let t := (Rat.floor (10 * |q| + 1 / 2)).toNat
  sign ++ toString (t / 10) ++ "." ++ toString (t % 10)

/-- Python's `f"{s:<w}"`: left-justify `s` in a field of width `w`,
padding with spaces (no padding when `s` is already at least `w` long). -/
def ljust (s : String) (w : Nat) : String :=
  s ++ String.mk (List.replicate (w - s.length) ' ')

/-- The ten column values of one table row, before padding
(`ConsoleDisplay.display_disk_row`, display.py lines 72-101): device and
mountpoint truncated, formatted usage columns, then the four rate columns,
each either the one-decimal rate or the `"N/A"` placeholder. -/
def display_row_cells (disk_usage : DiskUsage) (io_rates : Option IORates) :
    List String :=
  let device := if disk_usage.device.length > 14 then
                  pyTake disk_usage.device 14
                else disk_usage.device
  let mountpoint := if disk_usage.mountpoint.length > 19 then
                      pyTake disk_usage.mountpoint 19
                    else disk_usage.mountpoint
  let used := format_bytes disk_usage.used_bytes
  let available := format_bytes disk_usage.available_bytes
  let total := format_bytes disk_usage.total_bytes
  let usage_percent := fmt1Rat disk_usage.usage_percent ++ "%"
  match io_rates with
  | some r =>
    [device, mountpoint, used, available, total, usage_percent,
     fmt1Rat r.read_ops_per_sec, fmt1Rat r.write_ops_per_sec,
     fmt1Rat r.read_kb_per_sec, fmt1Rat r.write_kb_per_sec]
  | none =>
    [device, mountpoint, used, available, total, usage_percent,
     "N/A", "N/A", "N/A", "N/A"]

/-- The row string printed by `ConsoleDisplay.display_disk_row`
(display.py lines 103-115): the ten cells left-justified to widths
15/20/10/10/10/8/12/13/12/12 and joined by single spaces. -/
def display_disk_row (disk_usage : DiskUsage) (io_rates : Option IORates) :
    String :=
  String.intercalate " "
    (List.zipWith ljust (display_row_cells disk_usage io_rates)
      [15, 20, 10, 10, 10, 8, 12, 13, 12, 12])

/-- Helper for `basename`: split a character list on `/`, keeping empty
segments (as Python's path split does). -/
def splitSlash : List Char → List Char → List String
  | [], acc => [String.mk acc.reverse]
  | c :: rest, acc =>
    if c == '/' then String.mk acc.reverse :: splitSlash rest []
    else splitSlash rest (c :: acc)

/-- `os.path.basename` for the device paths in question: the final
`/`-separated segment of the path. -/
def basename (p : String) : String :=
  (splitSlash p.data []).getLastD ""

/-- Python `s.rstrip("0123456789")`: remove trailing decimal digits. -/
def rstrip_digits (s : String) : String :=
  String.mk (s.data.reverse.dropWhile Char.isDigit).reverse

/-- The per-key match test of the correlation loop in
`ConsoleDisplay.display_disk_metrics` (display.py lines 135-140): a single
disjunction of the exact, prefix and stripped-digits rules, evaluated for
one candidate counter key. -/
def io_match (device_name device_key : String) : Bool :=
  device_key == device_name
    || pyStartsWith device_name device_key
    || pyStartsWith device_key (rstrip_digits device_name)

/-- The correlation loop of `ConsoleDisplay.display_disk_metrics`
(display.py lines 135-142): walk the counter dict in insertion order and
take the first key for which `io_match` holds, breaking immediately.
(The `if io_rates_dict:` guard in the source is a no-op here: an empty
dict yields `none` either way.) -/
def find_io_rates (io_rates_dict : List (String × IORates))
    (device_name : String) : Option IORates :=
  match io_rates_dict with
  | [] => none
  | (device_key, rates) :: rest =>
    if io_match device_name device_key then some rates
    else find_io_rates rest device_name

/-- `ConsoleDisplay.display_disk_metrics` (display.py lines 121-145),
restricted to its pure output: the list of row strings printed after the
header (screen clearing and the header itself are terminal I/O outside
the embedding). -/
def display_disk_metrics (disk_usages : List DiskUsage)
    (io_rates_dict : List (String × IORates)) : List String :=
  disk_usages.map fun disk_usage =>
    display_disk_row disk_usage
      (find_io_rates io_rates_dict (basename disk_usage.device))

/-- Python `dict` lookup `m[k]` / `k in m` on the association-list model:
value of the first entry with the given key. -/
def dictGet? {α : Type} (m : List (String × α)) (k : String) : Option α :=
  (m.find? fun kv => kv.1 == k).map Prod.snd

/-- Python `dict` assignment `m[k] = v` on the association-list model:
replace the first entry with key `k` in place (Python dicts keep the
original insertion position on overwrite), else append. -/
def dictInsert {α : Type} (m : List (String × α)) (k : String) (v : α) :
    List (String × α) :=
  match m with
  | [] => [(k, v)]
  | (k', v') :: rest =>
    if k' == k then (k, v) :: rest else (k', v') :: dictInsert rest k v

/-- The rate-computation loop of `DiskMonitor.update_display`
(monitor.py lines 104-121): starting from the `if self.previous_io_stats:`
emptiness guard, for each device of the current counter map that is also
in the previous map, compute the elapsed interval from the timestamps and,
only when it is strictly positive, call `calculate_io_rates`; a raised
`ValueError` is caught and the device skipped. -/
def compute_io_rates_dict (previous current : List (String × IOStats)) :
    List (String × IORates) :=
  match previous with
  | [] => []
  | _ :: _ =>
    current.filterMap fun kv =>
      match dictGet? previous kv.1 with
      | none => none
      | some previous_stats =>
        let interval := kv.2.timestamp - previous_stats.timestamp
        if 0 < interval then
          match calculate_io_rates kv.2 previous_stats interval with
          | .ok rates => some (kv.1, rates)
          | .error _ => none
        else none

/-- Variant of `calculate_io_rates` with the `interval <= 0` check removed
(the device-equality check and the arithmetic are untouched); used to show
the `InvalidInterval` branch is unreachable from the monitor loop. -/
def calculate_io_rates_uncheckedInterval (current previous : IOStats)
    (interval : Rat) : Except PyError IORates :=
  if current.device ≠ previous.device then
    .error .deviceMismatch
  else
    let read_ops_diff := current.read_ops - previous.read_ops
    let write_ops_diff := current.write_ops - previous.write_ops
    let read_bytes_diff := current.read_bytes - previous.read_bytes
    let write_bytes_diff := current.write_bytes - previous.write_bytes
    .ok { device := current.device
          read_ops_per_sec := (read_ops_diff : Rat) / interval
          write_ops_per_sec := (write_ops_diff : Rat) / interval
          read_kb_per_sec := ((read_bytes_diff : Rat) / interval) / 1024
          write_kb_per_sec := ((write_bytes_diff : Rat) / interval) / 1024 }

/-- `compute_io_rates_dict` with `calculate_io_rates_uncheckedInterval`
substituted for `calculate_io_rates`. -/
def compute_io_rates_dict_uncheckedInterval
    (previous current : List (String × IOStats)) :
    List (String × IORates) :=
  match previous with
  | [] => []
  | _ :: _ =>
    current.filterMap fun kv =>
      match dictGet? previous kv.1 with
      | none => none
      | some previous_stats =>
        let interval := kv.2.timestamp - previous_stats.timestamp
        if 0 < interval then
          match calculate_io_rates_uncheckedInterval kv.2 previous_stats
              interval with
          | .ok rates => some (kv.1, rates)
          | .error _ => none
        else none

/-- `DiskMonitor.update_display` (monitor.py lines 95-127) on a cycle in
which collection did not raise: given the stored previous map and the two
freshly collected inputs, return the computed rates dict, the new stored
previous map (line 124: `self.previous_io_stats = current_io_stats`), and
the rendered rows. -/
def update_display (previous current : List (String × IOStats))
    (disk_usages : List DiskUsage) :
    List (String × IORates) × List (String × IOStats) × List String :=
  let io_rates_dict := compute_io_rates_dict previous current
  (io_rates_dict, current, display_disk_metrics disk_usages io_rates_dict)

/-- Helper for `pySplit`: walk the characters with the (reversed) current
token as accumulator, emitting a token at each whitespace boundary. -/
def pySplitAux : List Char → List Char → List String
  | [], [] => []
  | [], acc => [String.mk acc.reverse]
  | c :: rest, acc =>
    if c.isWhitespace then
      match acc with
      | [] => pySplitAux rest []
      | _ => String.mk acc.reverse :: pySplitAux rest []
    else pySplitAux rest (c :: acc)

/-- Python `line.strip().split()`: split on runs of whitespace, dropping
empty fields. -/
def pySplit (line : String) : List String :=
  pySplitAux line.data []

/-- Value of a list of decimal digit characters. -/
def digitsToNat (l : List Char) : Nat :=
  l.foldl (fun acc c => 10 * acc + (c.toNat - '0'.toNat)) 0

/-- Python `int(s)` on the strings this program feeds it: an optional
sign followed by decimal digits parses to the integer, anything else
raises `ValueError` (`none`).  (CPython also accepts surrounding
whitespace, underscore separators and non-ASCII digits; the whitespace-
split fields here contain none of those, and the claims below only
exercise digit strings and a non-numeric failing field.) -/
def pyInt? (s : String) : Option Int :=
  match s.data with
  | [] => none
  | '-' :: rest =>
    if rest ≠ [] ∧ rest.all Char.isDigit then some (-(digitsToNat rest : Int))
    else none
  | '+' :: rest =>
    if rest ≠ [] ∧ rest.all Char.isDigit then some (digitsToNat rest : Int)
    else none
  | chars =>
    if chars.all Char.isDigit then some (digitsToNat chars : Int) else none

/-- The line loop of `DiskInfoCollector.get_disk_io_stats` (collector.py
lines 123-152): lines with fewer than 14 whitespace-separated fields are
skipped, devices named `loop*`/`ram*` are skipped, otherwise the counter
fields are parsed with `int()` (a non-numeric field raises `ValueError`,
which is not caught inside the function) and the entry is stored under
the device name. -/
def diskstatsLines (current_time : Rat) :
    List String → List (String × IOStats) →
    Except PyError (List (String × IOStats))
  | [], io_stats => .ok io_stats
  | line :: rest, io_stats =>
    let fields := pySplit line
    if 14 ≤ fields.length then
      let device_name := fields.getD 2 ""
      if pyStartsWith device_name "loop" || pyStartsWith device_name "ram" then
        diskstatsLines current_time rest io_stats
      else
        match pyInt? (fields.getD 3 ""), pyInt? (fields.getD 7 ""),
            pyInt? (fields.getD 5 ""), pyInt? (fields.getD 9 "") with
        | some read_ops, some write_ops, some read_sectors,
            some write_sectors =>
          diskstatsLines current_time rest
            (dictInsert io_stats device_name
              { device := device_name
                read_ops := read_ops
                write_ops := write_ops
                read_bytes := read_sectors * 512
                write_bytes := write_sectors * 512
                timestamp := current_time })
        | _, _, _, _ => .error .valueError
    else
      diskstatsLines current_time rest io_stats

/-- `DiskInfoCollector.get_disk_io_stats` (collector.py lines 115-158).
`feed = none` models an unreadable `/proc/diskstats` (the `open` raising
`OSError`/`IOError`/`PermissionError`, caught at lines 154-156): the
empty map is returned.  `feed = some lines` is the readable feed. -/
def get_disk_io_stats (feed : Option (List String)) (current_time : Rat) :
    Except PyError (List (String × IOStats)) :=
  match feed with
  | none => .ok []
  | some lines => diskstatsLines current_time lines []

/-- Whether a line of the counter feed cannot make `int()` raise: it is
either ineligible (short line, or `loop*`/`ram*` device) or all four
counter fields parse. -/
def lineParses (line : String) : Bool :=
  let fields := pySplit line
  decide (fields.length < 14)
    || pyStartsWith (fields.getD 2 "") "loop"
    || pyStartsWith (fields.getD 2 "") "ram"
    || ((pyInt? (fields.getD 3 "")).isSome
        && (pyInt? (fields.getD 5 "")).isSome
        && (pyInt? (fields.getD 7 "")).isSome
        && (pyInt? (fields.getD 9 "")).isSome)

/-- Modelled from the spec: the map the spec's words describe for the
counter feed — "built from exactly the lines having at least 14
whitespace-separated fields whose device name (field index 2) does not
start with `loop` or `ram`, keyed by that device name, with
`read_ops` = field 3, `read_bytes` = field 5 × 512, `write_ops` = field 7,
`write_bytes` = field 9 × 512" — written independently of the source's
line loop, for comparison with `get_disk_io_stats`.  (Counter fields that
fail to parse default to 0 here; the comparison theorem only applies when
every eligible line parses.) -/
def specIoStep (current_time : Rat) (m : List (String × IOStats))
    (line : String) : List (String × IOStats) :=
  let fields := pySplit line
  let device_name := fields.getD 2 ""
  if 14 ≤ fields.length ∧ ¬pyStartsWith device_name "loop"
      ∧ ¬pyStartsWith device_name "ram" then
    dictInsert m device_name
      { device := device_name
        read_ops := (pyInt? (fields.getD 3 "")).getD 0
        write_ops := (pyInt? (fields.getD 7 "")).getD 0
        read_bytes := (pyInt? (fields.getD 5 "")).getD 0 * 512
        write_bytes := (pyInt? (fields.getD 9 "")).getD 0 * 512
        timestamp := current_time }
  else m

/-- Modelled from the spec (continued): the full map described by the
spec's words, folded line by line with `specIoStep`. -/
def specIoMap (current_time : Rat) (lines : List String) :
    List (String × IOStats) :=
  lines.foldl (specIoStep current_time) []

/-- A mounted partition record as returned by the mount-enumeration
collaborator (`psutil.disk_partitions()`). -/
structure Partition where
  device : String
  mountpoint : String
  fstype : String
deriving Repr, DecidableEq

/-- Network filesystem types filtered by default (collector.py 45-53). -/
def NETWORK_FS_TYPES : List String :=
  ["nfs", "nfs4", "cifs", "smb", "smbfs", "fuse.sshfs", "fuse.glusterfs"]

/-- Special filesystem types always filtered (collector.py 56). -/
def SPECIAL_FS_TYPES : List String :=
  ["tmpfs", "devtmpfs", "squashfs", "overlay"]

/-- `DiskInfoCollector.get_disk_usage` (collector.py lines 67-113).
`disk_usage_fn` is the space collaborator (`shutil.disk_usage`): for a
mountpoint it returns `(total, free)` bytes, or `none` when the syscall
raises `OSError`/`PermissionError` (that partition is skipped). -/
def get_disk_usage (include_network : Bool) (partitions : List Partition)
    (disk_usage_fn : String → Option (Nat × Nat)) : List DiskUsage :=
  partitions.filterMap fun partition =>
    if SPECIAL_FS_TYPES.contains partition.fstype then none
    else if !include_network && NETWORK_FS_TYPES.contains partition.fstype then
      none
    else
      match disk_usage_fn partition.mountpoint with
      | none => none
      | some (total_bytes, free_bytes) =>
        let used_bytes : Int := (total_bytes : Int) - (free_bytes : Int)
        let usage_percent : Rat :=
          if 0 < total_bytes then
            (used_bytes : Rat) / (total_bytes : Rat) * 100
          else 0
        some { device := partition.device
               mountpoint := partition.mountpoint
               total_bytes := (total_bytes : Int)
               used_bytes := used_bytes
               available_bytes := (free_bytes : Int)
               usage_percent := usage_percent }

instance {ε α : Type} [DecidableEq ε] [DecidableEq α] :
    DecidableEq (Except ε α) := fun a b =>
  match a, b with
  | .ok x, .ok y =>
    if h : x = y then .isTrue (by rw [h]) else .isFalse (by simp [h])
  | .error x, .error y =>
    if h : x = y then .isTrue (by rw [h]) else .isFalse (by simp [h])
  | .ok _, .error _ => .isFalse (by simp)
  | .error _, .ok _ => .isFalse (by simp)

/-- C1: for every pair of `IOStats` with equal device names and every
interval strictly greater than 0, `calculate_io_rates` returns an
`IORates` whose fields are exactly the counter differences divided by the
interval (bytes further divided by 1024), with no clamping: a counter
that decreased yields a negative rate, returned as-is. -/
theorem calculate_io_rates_formula (current previous : IOStats)
    (interval : Rat) (hdev : current.device = previous.device)
    (hpos : 0 < interval) :
    ∃ r, calculate_io_rates current previous interval = .ok r ∧
      r.read_ops_per_sec =
        ((current.read_ops - previous.read_ops : Int) : Rat) / interval ∧
      r.write_ops_per_sec =
        ((current.write_ops - previous.write_ops : Int) : Rat) / interval ∧
      r.read_kb_per_sec =
        (((current.read_bytes - previous.read_bytes : Int) : Rat) /
          interval) / 1024 ∧
      r.write_kb_per_sec =
        (((current.write_bytes - previous.write_bytes : Int) : Rat) /
          interval) / 1024 ∧
      (current.read_ops < previous.read_ops → r.read_ops_per_sec < 0) ∧
      (current.write_ops < previous.write_ops → r.write_ops_per_sec < 0) ∧
      (current.read_bytes < previous.read_bytes → r.read_kb_per_sec < 0) ∧
      (current.write_bytes < previous.write_bytes → r.write_kb_per_sec < 0) := by
  have hnle : ¬ interval ≤ 0 := not_le.mpr hpos
  have hdev' : ¬ current.device ≠ previous.device := by simp [hdev]
  have h : calculate_io_rates current previous interval = .ok
      { device := current.device
        read_ops_per_sec :=
          ((current.read_ops - previous.read_ops : Int) : Rat) / interval
        write_ops_per_sec :=
          ((current.write_ops - previous.write_ops : Int) : Rat) / interval
        read_kb_per_sec :=
          (((current.read_bytes - previous.read_bytes : Int) : Rat) /
            interval) / 1024
        write_kb_per_sec :=
          (((current.write_bytes - previous.write_bytes : Int) : Rat) /
            interval) / 1024 } := by
    unfold calculate_io_rates
    rw [if_neg hnle, if_neg hdev']
  refine ⟨_, h, rfl, rfl, rfl, rfl, ?_, ?_, ?_, ?_⟩
  all_goals intro hlt
  · exact div_neg_of_neg_of_pos (by exact_mod_cast sub_neg.mpr hlt) hpos
  · exact div_neg_of_neg_of_pos (by exact_mod_cast sub_neg.mpr hlt) hpos
  · exact div_neg_of_neg_of_pos
      (div_neg_of_neg_of_pos (by exact_mod_cast sub_neg.mpr hlt) hpos)
      (by norm_num)
  · exact div_neg_of_neg_of_pos
      (div_neg_of_neg_of_pos (by exact_mod_cast sub_neg.mpr hlt) hpos)
      (by norm_num)

/-- Witness for C1 at concrete inputs: device `sda`, read ops 150 vs 100
over interval 2, and a decreased write counter giving a negative rate. -/
theorem calculate_io_rates_formula_witness :
    ∃ r, calculate_io_rates ⟨"sda", 150, 40, 2048, 0, 3⟩
        ⟨"sda", 100, 50, 0, 1024, 1⟩ 2 = .ok r ∧
      r.read_ops_per_sec = ((150 - 100 : Int) : Rat) / 2 ∧
      r.write_ops_per_sec = ((40 - 50 : Int) : Rat) / 2 ∧
      r.read_kb_per_sec = (((2048 - 0 : Int) : Rat) / 2) / 1024 ∧
      r.write_kb_per_sec = (((0 - 1024 : Int) : Rat) / 2) / 1024 ∧
      r.write_ops_per_sec < 0 ∧ r.write_kb_per_sec < 0 := by
  obtain ⟨r, h, h1, h2, h3, h4, _, h6, _, h8⟩ :=
    calculate_io_rates_formula ⟨"sda", 150, 40, 2048, 0, 3⟩
      ⟨"sda", 100, 50, 0, 1024, 1⟩ 2 rfl (by norm_num)
  exact ⟨r, h, h1, h2, h3, h4, h6 (by norm_num), h8 (by norm_num)⟩

/-- C2 counterexample: at `interval = 0` with differing device names
(`"a"` vs `"b"`), `calculate_io_rates` fails with the `InvalidInterval`
error, not the `DeviceMismatch` error the claim requires "whenever
current.device differs from previous.device". -/
theorem calculate_io_rates_mismatch_zero_interval_cex :
    (IOStats.mk "a" 0 0 0 0 0).device ≠ (IOStats.mk "b" 0 0 0 0 0).device ∧
    calculate_io_rates (IOStats.mk "a" 0 0 0 0 0)
      (IOStats.mk "b" 0 0 0 0 0) 0 = .error .invalidInterval ∧
    PyError.invalidInterval ≠ PyError.deviceMismatch := by
  refine ⟨by decide, by decide, by decide⟩

/-- C2 (amended): `calculate_io_rates` fails with `InvalidInterval`
whenever `interval ≤ 0`; with `DeviceMismatch` whenever `interval > 0`
and the device names differ; and succeeds (returns an `IORates`) whenever
`interval > 0` and the device names are equal. -/
theorem calculate_io_rates_errors (current previous : IOStats)
    (interval : Rat) :
    (interval ≤ 0 →
      calculate_io_rates current previous interval =
        .error .invalidInterval) ∧
    (0 < interval → current.device ≠ previous.device →
      calculate_io_rates current previous interval =
        .error .deviceMismatch) ∧
    (0 < interval → current.device = previous.device →
      ∃ r, calculate_io_rates current previous interval = .ok r) := by
  refine ⟨fun hle => ?_, fun hpos hne => ?_, fun hpos heq => ?_⟩
  · unfold calculate_io_rates
    rw [if_pos hle]
  · unfold calculate_io_rates
    rw [if_neg (not_le.mpr hpos), if_pos hne]
  · refine ⟨{ device := current.device
              read_ops_per_sec :=
                ((current.read_ops - previous.read_ops : Int) : Rat) / interval
              write_ops_per_sec :=
                ((current.write_ops - previous.write_ops : Int) : Rat) /
                  interval
              read_kb_per_sec :=
                (((current.read_bytes - previous.read_bytes : Int) : Rat) /
                  interval) / 1024
              write_kb_per_sec :=
                (((current.write_bytes - previous.write_bytes : Int) : Rat) /
                  interval) / 1024 }, ?_⟩
    unfold calculate_io_rates
    rw [if_neg (not_le.mpr hpos), if_neg (by simp [heq])]

/-- Witness for C2 (amended), exercising all three branches at concrete
inputs. -/
theorem calculate_io_rates_errors_witness :
    calculate_io_rates (IOStats.mk "sda" 0 0 0 0 0)
      (IOStats.mk "sda" 0 0 0 0 0) 0 = .error .invalidInterval ∧
    calculate_io_rates (IOStats.mk "sda" 0 0 0 0 0)
      (IOStats.mk "sdb" 0 0 0 0 0) 1 = .error .deviceMismatch ∧
    ∃ r, calculate_io_rates (IOStats.mk "sda" 0 0 0 0 0)
      (IOStats.mk "sda" 0 0 0 0 0) 1 = .ok r :=
  ⟨(calculate_io_rates_errors (IOStats.mk "sda" 0 0 0 0 0)
      (IOStats.mk "sda" 0 0 0 0 0) 0).1 (by norm_num),
   (calculate_io_rates_errors (IOStats.mk "sda" 0 0 0 0 0)
      (IOStats.mk "sdb" 0 0 0 0 0) 1).2.1 (by norm_num) (by decide),
   (calculate_io_rates_errors (IOStats.mk "sda" 0 0 0 0 0)
      (IOStats.mk "sda" 0 0 0 0 0) 1).2.2 (by norm_num) rfl⟩

/-- C10: the interval precondition is checked before the device-equality
precondition: whenever both `interval ≤ 0` and the devices differ, the
failure raised is `InvalidInterval`, not `DeviceMismatch`. -/
theorem interval_checked_before_device (current previous : IOStats)
    (interval : Rat) (hle : interval ≤ 0)
    (_hne : current.device ≠ previous.device) :
    calculate_io_rates current previous interval =
      .error .invalidInterval := by
  unfold calculate_io_rates
  rw [if_pos hle]

/-- Witness for C10 at a concrete input with both preconditions
violated. -/
theorem interval_checked_before_device_witness :
    (-1 : Rat) ≤ 0 ∧
    (IOStats.mk "a" 0 0 0 0 0).device ≠ (IOStats.mk "b" 0 0 0 0 0).device ∧
    calculate_io_rates (IOStats.mk "a" 0 0 0 0 0)
      (IOStats.mk "b" 0 0 0 0 0) (-1) = .error .invalidInterval :=
  ⟨by norm_num, by decide,
   interval_checked_before_device (IOStats.mk "a" 0 0 0 0 0)
     (IOStats.mk "b" 0 0 0 0 0) (-1) (by norm_num) (by decide)⟩

/-- C3 counterexample: with counter dict `[("sda", r1), ("sda1", r2)]`
(in insertion order) and usage path `/dev/sda1`, the base name `sda1` is
exactly the counter key `sda1`, yet the correlation loop resolves to the
entry for `sda` — the earlier key, which only satisfies the prefix rule —
so the exact match is not prioritized as the claim states. -/
theorem find_io_rates_exact_not_prioritized_cex :
    "sda1" ∈ ([("sda", IORates.mk "sda" 1 1 1 1),
               ("sda1", IORates.mk "sda1" 2 2 2 2)].map Prod.fst) ∧
    find_io_rates [("sda", IORates.mk "sda" 1 1 1 1),
        ("sda1", IORates.mk "sda1" 2 2 2 2)] (basename "/dev/sda1") =
      some (IORates.mk "sda" 1 1 1 1) ∧
    IORates.mk "sda" 1 1 1 1 ≠ IORates.mk "sda1" 2 2 2 2 := by
  refine ⟨by decide, by decide, by decide⟩

/-- C3 (amended): the correlation loop applies no priority among the
three rules: it returns the value of the first counter key in dict
(insertion) order satisfying the disjunction of the exact, prefix and
stripped-digits rules; and when no key satisfies any rule it yields
`none` (the row gets no rates) rather than an error. -/
theorem find_io_rates_first_match (io_rates_dict : List (String × IORates))
    (device_name : String) :
    find_io_rates io_rates_dict device_name =
      (io_rates_dict.find? fun kv => io_match device_name kv.1).map
        Prod.snd ∧
    ((∀ kv ∈ io_rates_dict, io_match device_name kv.1 = false) →
      find_io_rates io_rates_dict device_name = none) := by
  constructor
  · induction io_rates_dict with
    | nil => rfl
    | cons kv rest ih =>
      obtain ⟨k, v⟩ := kv
      by_cases h : io_match device_name k
      · simp [find_io_rates, List.find?_cons, h]
      · simpa [find_io_rates, List.find?_cons, h] using ih
  · intro hnone
    induction io_rates_dict with
    | nil => rfl
    | cons kv rest ih =>
      obtain ⟨k, v⟩ := kv
      have hk : io_match device_name k = false := hnone (k, v) (by simp)
      simp only [find_io_rates, hk, Bool.false_eq_true, if_false]
      exact ih fun kv' hkv' => hnone kv' (List.mem_cons_of_mem _ hkv')

/-- Witness for C3 (amended) at concrete inputs: a matched dict and an
unmatched one. -/
theorem find_io_rates_first_match_witness :
    (find_io_rates [("sda", IORates.mk "sda" 1 1 1 1)] "sda1" =
      ([("sda", IORates.mk "sda" 1 1 1 1)].find? fun kv =>
        io_match "sda1" kv.1).map Prod.snd) ∧
    ((∀ kv ∈ [("sdb", IORates.mk "sdb" 1 1 1 1)],
        io_match "sda1" kv.1 = false) ∧
      find_io_rates [("sdb", IORates.mk "sdb" 1 1 1 1)] "sda1" = none) :=
  ⟨(find_io_rates_first_match [("sda", IORates.mk "sda" 1 1 1 1)] "sda1").1,
   by decide,
   (find_io_rates_first_match [("sdb", IORates.mk "sdb" 1 1 1 1)]
      "sda1").2 (by decide)⟩

/-- Any entry of the rates dict produced by the monitor loop comes from a
device present in the current map whose previous sample exists and has a
strictly earlier timestamp, via a successful `calculate_io_rates` call on
that positive interval. -/
theorem mem_compute_io_rates_dict {previous current : List (String × IOStats)}
    {d : String} {r : IORates}
    (h : (d, r) ∈ compute_io_rates_dict previous current) :
    ∃ cur p, (d, cur) ∈ current ∧ dictGet? previous d = some p ∧
      p.timestamp < cur.timestamp ∧
      calculate_io_rates cur p (cur.timestamp - p.timestamp) = .ok r := by
  cases previous with
  | nil => simp [compute_io_rates_dict] at h
  | cons pkv prest =>
    rw [compute_io_rates_dict] at h
    rw [List.mem_filterMap] at h
    obtain ⟨kv, hkv, hf⟩ := h
    simp only at hf
    split at hf
    · exact absurd hf (by simp)
    next p hget =>
      split at hf
      next hint =>
        split at hf
        next rates hcalc =>
          rw [Option.some_inj] at hf
          have hd : kv.1 = d := congrArg Prod.fst hf
          have hr : rates = r := congrArg Prod.snd hf
          refine ⟨kv.2, p, ?_, ?_, sub_pos.mp hint, ?_⟩
          · rw [← hd]; exact hkv
          · rw [← hd]; exact hget
          · rw [← hr]; exact hcalc
        next e hcalc => exact absurd hf (by simp)
      next hint => exact absurd hf (by simp)

/-- C4: at the end of every successful poll cycle, the stored
previous-sample map equals exactly the current cycle's counter map (full
replacement, regardless of which per-device rate computations were
skipped or failed); consequently a device absent from the newest counter
map is absent from the stored map, and no rate entry for it can be
produced in the next cycle. -/
theorem previous_map_fully_replaced
    (previous current : List (String × IOStats))
    (disk_usages : List DiskUsage) :
    (update_display previous current disk_usages).2.1 = current ∧
    ∀ d, dictGet? current d = none →
      dictGet? (update_display previous current disk_usages).2.1 d = none ∧
      ∀ next_current r, (d, r) ∉
        compute_io_rates_dict
          (update_display previous current disk_usages).2.1 next_current := by
  refine ⟨rfl, fun d hd => ⟨hd, fun next_current r hmem => ?_⟩⟩
  obtain ⟨cur, p, -, hget, -, -⟩ := mem_compute_io_rates_dict hmem
  have hget' : dictGet? current d = some p := hget
  rw [hd] at hget'
  exact Option.noConfusion hget'

/-- Witness for C4 at concrete maps: device `sdb` is dropped from the
newest counter map, so it is absent from the stored map and gets no rate
entry next cycle even though a fresh `sdb` sample appears then. -/
theorem previous_map_fully_replaced_witness :
    dictGet? [("sda", IOStats.mk "sda" 0 0 0 0 0)] "sdb" = none ∧
    (update_display [("sdb", IOStats.mk "sdb" 0 0 0 0 0)]
        [("sda", IOStats.mk "sda" 0 0 0 0 0)] []).2.1 =
      [("sda", IOStats.mk "sda" 0 0 0 0 0)] ∧
    dictGet? (update_display [("sdb", IOStats.mk "sdb" 0 0 0 0 0)]
        [("sda", IOStats.mk "sda" 0 0 0 0 0)] []).2.1 "sdb" = none ∧
    ("sdb", IORates.mk "sdb" 0 0 0 0) ∉
      compute_io_rates_dict
        (update_display [("sdb", IOStats.mk "sdb" 0 0 0 0 0)]
          [("sda", IOStats.mk "sda" 0 0 0 0 0)] []).2.1
        [("sdb", IOStats.mk "sdb" 1 1 1 1 1)] := by
  have h := previous_map_fully_replaced
    [("sdb", IOStats.mk "sdb" 0 0 0 0 0)]
    [("sda", IOStats.mk "sda" 0 0 0 0 0)] []
  have habs : dictGet? [("sda", IOStats.mk "sda" 0 0 0 0 0)] "sdb" = none :=
    by decide
  exact ⟨habs, h.1, (h.2 "sdb" habs).1,
    (h.2 "sdb" habs).2 [("sdb", IOStats.mk "sdb" 1 1 1 1 1)]
      (IORates.mk "sdb" 0 0 0 0)⟩

/-- C5: the monitor loop computes a rate only for devices present in both
the new counter map and the previous map with strictly positive elapsed
time, and (devices with elapsed ≤ 0 being skipped silently) the loop's
behaviour is unchanged if the `interval <= 0` check inside
`calculate_io_rates` is removed: the `InvalidInterval` branch is
unreachable from the loop. -/
theorem rates_only_positive_interval
    (previous current : List (String × IOStats)) :
    (∀ d r, (d, r) ∈ compute_io_rates_dict previous current →
      ∃ cur p, (d, cur) ∈ current ∧ dictGet? previous d = some p ∧
        p.timestamp < cur.timestamp) ∧
    compute_io_rates_dict previous current =
      compute_io_rates_dict_uncheckedInterval previous current := by
  constructor
  · intro d r h
    obtain ⟨cur, p, h1, h2, h3, -⟩ := mem_compute_io_rates_dict h
    exact ⟨cur, p, h1, h2, h3⟩
  · cases previous with
    | nil => rfl
    | cons pkv prest =>
      rw [compute_io_rates_dict, compute_io_rates_dict_uncheckedInterval]
      apply List.filterMap_congr
      intro kv _
      cases dictGet? (pkv :: prest) kv.1 with
      | none => rfl
      | some p =>
        show (if 0 < kv.2.timestamp - p.timestamp then
            match calculate_io_rates kv.2 p
                (kv.2.timestamp - p.timestamp) with
            | .ok rates => some (kv.1, rates)
            | .error _ => none
          else none) =
          (if 0 < kv.2.timestamp - p.timestamp then
            match calculate_io_rates_uncheckedInterval kv.2 p
                (kv.2.timestamp - p.timestamp) with
            | .ok rates => some (kv.1, rates)
            | .error _ => none
          else none)
        by_cases hint : 0 < kv.2.timestamp - p.timestamp
        · rw [if_pos hint, if_pos hint]
          have hsame : calculate_io_rates kv.2 p
              (kv.2.timestamp - p.timestamp) =
              calculate_io_rates_uncheckedInterval kv.2 p
                (kv.2.timestamp - p.timestamp) := by
            unfold calculate_io_rates calculate_io_rates_uncheckedInterval
            rw [if_neg (not_le.mpr hint)]
          rw [hsame]
        · rw [if_neg hint, if_neg hint]

/-- Witness for C5 at concrete maps: a rate entry computed for `sda` over
a positive interval, traced back to both maps. -/
theorem rates_only_positive_interval_witness :
    ("sda", IORates.mk "sda" 5 5 1 1) ∈
      compute_io_rates_dict [("sda", IOStats.mk "sda" 0 0 0 0 0)]
        [("sda", IOStats.mk "sda" 10 10 2048 2048 2)] ∧
    ∃ cur p, ("sda", cur) ∈ [("sda", IOStats.mk "sda" 10 10 2048 2048 2)] ∧
      dictGet? [("sda", IOStats.mk "sda" 0 0 0 0 0)] "sda" = some p ∧
      p.timestamp < cur.timestamp := by
  have heval : compute_io_rates_dict [("sda", IOStats.mk "sda" 0 0 0 0 0)]
      [("sda", IOStats.mk "sda" 10 10 2048 2048 2)] =
      [("sda", IORates.mk "sda" 5 5 1 1)] := by
    rw [compute_io_rates_dict]
    simp only [List.filterMap, dictGet?, List.find?]
    norm_num [calculate_io_rates, IORates.mk.injEq]
  have hmem : ("sda", IORates.mk "sda" 5 5 1 1) ∈
      compute_io_rates_dict [("sda", IOStats.mk "sda" 0 0 0 0 0)]
        [("sda", IOStats.mk "sda" 10 10 2048 2048 2)] := by
    rw [heval]
    exact List.mem_singleton.mpr rfl
  exact ⟨hmem,
    (rates_only_positive_interval [("sda", IOStats.mk "sda" 0 0 0 0 0)]
      [("sda", IOStats.mk "sda" 10 10 2048 2048 2)]).1 "sda"
      (IORates.mk "sda" 5 5 1 1) hmem⟩

/-- The line loop equals the spec-described fold on any starting
accumulator, provided every line is `lineParses`-clean. -/
theorem diskstatsLines_eq_foldl (t : Rat) (lines : List String)
    (acc : List (String × IOStats))
    (h : ∀ l ∈ lines, lineParses l = true) :
    diskstatsLines t lines acc = .ok (lines.foldl (specIoStep t) acc) := by
  induction lines generalizing acc with
  | nil => rfl
  | cons line rest ih =>
    have hline := h line (by simp)
    have hrest : ∀ l ∈ rest, lineParses l = true := fun l hl =>
      h l (List.mem_cons_of_mem _ hl)
    rw [diskstatsLines, List.foldl_cons]
    by_cases h14 : 14 ≤ (pySplit line).length
    · rw [if_pos h14]
      cases hskip : (pyStartsWith ((pySplit line).getD 2 "") "loop"
          || pyStartsWith ((pySplit line).getD 2 "") "ram") with
      | true =>
        rw [if_pos hskip]
        have hstep : specIoStep t acc line = acc := by
          rw [specIoStep, if_neg]
          intro hand
          rcases Bool.or_eq_true_iff.mp hskip with hl | hr
          · exact hand.2.1 hl
          · exact hand.2.2 hr
        rw [hstep]
        exact ih acc hrest
      | false =>
        rw [if_neg (by rw [hskip]; exact Bool.false_ne_true)]
        have hboth := Bool.or_eq_false_iff.mp hskip
        have hnl : ¬ pyStartsWith ((pySplit line).getD 2 "") "loop" := by
          rw [hboth.1]; exact Bool.false_ne_true
        have hnr : ¬ pyStartsWith ((pySplit line).getD 2 "") "ram" := by
          rw [hboth.2]; exact Bool.false_ne_true
        have hparse : (pyInt? ((pySplit line).getD 3 "")).isSome ∧
            (pyInt? ((pySplit line).getD 5 "")).isSome ∧
            (pyInt? ((pySplit line).getD 7 "")).isSome ∧
            (pyInt? ((pySplit line).getD 9 "")).isSome := by
          rw [lineParses] at hline
          simp only [Bool.or_eq_true_iff, Bool.and_eq_true_iff,
            decide_eq_true_eq] at hline
          rcases hline with ((h1 | h2) | h3) | h4
          · omega
          · exact absurd h2 hnl
          · exact absurd h3 hnr
          · exact ⟨h4.1.1.1, h4.1.1.2, h4.1.2, h4.2⟩
        obtain ⟨v3, hv3⟩ := Option.isSome_iff_exists.mp hparse.1
        obtain ⟨v5, hv5⟩ := Option.isSome_iff_exists.mp hparse.2.1
        obtain ⟨v7, hv7⟩ := Option.isSome_iff_exists.mp hparse.2.2.1
        obtain ⟨v9, hv9⟩ := Option.isSome_iff_exists.mp hparse.2.2.2
        rw [hv3, hv7, hv5, hv9]
        have hstep : specIoStep t acc line = dictInsert acc
            ((pySplit line).getD 2 "")
            { device := (pySplit line).getD 2 ""
              read_ops := v3
              write_ops := v7
              read_bytes := v5 * 512
              write_bytes := v9 * 512
              timestamp := t } := by
          rw [specIoStep, if_pos ⟨h14, hnl, hnr⟩, hv3, hv5, hv7, hv9]
          rfl
        rw [hstep]
        exact ih _ hrest
    · rw [if_neg h14]
      have hstep : specIoStep t acc line = acc := by
        rw [specIoStep, if_neg]
        intro hand
        exact h14 hand.1
      rw [hstep]
      exact ih acc hrest

/-- C6 counterexample: a feed whose single line has 14 fields and device
`sda` (so the claim requires a map keyed by `sda`), but whose read-ops
field is the non-numeric `x`: `get_disk_io_stats` raises `ValueError`
(uncaught inside the function) instead of returning the described map. -/
theorem get_disk_io_stats_nonnumeric_cex :
    get_disk_io_stats (some ["8 0 sda x 0 20 0 30 0 40 0 0 0 0"]) 0 =
      .error .valueError ∧
    get_disk_io_stats (some ["8 0 sda x 0 20 0 30 0 40 0 0 0 0"]) 0 ≠
      .ok (specIoMap 0 ["8 0 sda x 0 20 0 30 0 40 0 0 0 0"]) := by
  refine ⟨by decide, by decide⟩

/-- C6 (amended): an entirely unreadable feed yields the empty map
rather than failing; and for every feed whose eligible lines (≥ 14
fields, device not `loop*`/`ram*`) have integer-parsing counter fields,
`get_disk_io_stats` returns exactly the spec-described map: one entry per
eligible line keyed by field 2, with read_ops = field 3,
read_bytes = field 5 × 512, write_ops = field 7,
write_bytes = field 9 × 512. -/
theorem get_disk_io_stats_parses (t : Rat) (lines : List String) :
    get_disk_io_stats none t = .ok [] ∧
    ((∀ l ∈ lines, lineParses l = true) →
      get_disk_io_stats (some lines) t = .ok (specIoMap t lines)) :=
  ⟨rfl, fun h => diskstatsLines_eq_foldl t lines [] h⟩

/-- Witness for C6 (amended) on a concrete well-formed feed line. -/
theorem get_disk_io_stats_parses_witness :
    (∀ l ∈ ["8 0 sda 10 0 20 0 30 0 40 0 0 0 0"], lineParses l = true) ∧
    get_disk_io_stats (some ["8 0 sda 10 0 20 0 30 0 40 0 0 0 0"]) 0 =
      .ok (specIoMap 0 ["8 0 sda 10 0 20 0 30 0 40 0 0 0 0"]) :=
  ⟨by decide,
   (get_disk_io_stats_parses 0 ["8 0 sda 10 0 20 0 30 0 40 0 0 0 0"]).2
     (by decide)⟩

/-- A string of the shape `"<a>.<d> <unit>"` where the fractional part
`d` is exactly one decimal digit. -/
def OneDecimal (s unit : String) : Prop :=
  ∃ a d : String,
    s = a ++ "." ++ d ++ (" " ++ unit) ∧ d.length = 1 ∧
      d.data.all Char.isDigit = true

/-- Rendering a natural number below 10 gives a single digit
character. -/
theorem toString_digit (m : Nat) (h : m < 10) :
    (toString m).length = 1 ∧ (toString m).data.all Char.isDigit = true := by
  interval_cases m <;> exact ⟨rfl, by decide⟩

/-- `fmt1` followed by a unit suffix always has the one-decimal shape. -/
theorem oneDecimal_fmt1 (num den : Nat) (unit : String) :
    OneDecimal (fmt1 num den ++ (" " ++ unit)) unit := by
  refine ⟨toString ((10 * num + den / 2) / den / 10),
    toString ((10 * num + den / 2) / den % 10), rfl, ?_, ?_⟩
  · exact (toString_digit _ (Nat.mod_lt _ (by norm_num))).1
  · exact (toString_digit _ (Nat.mod_lt _ (by norm_num))).2

/-- C7: `format_bytes` picks its unit strictly by base-1024 magnitude
thresholds — below 1024 the integer with unit `B`, then one-decimal
`KB`/`MB`/`GB` on the successive ranges, and `TB` from `1024^4` up — with
exactly one decimal digit whenever the unit is not `B`. -/
theorem format_bytes_units (n : Int) :
    (0 ≤ n → n < 1024 → format_bytes n = toString n ++ " B") ∧
    (1024 ≤ n → n < 1024 ^ 2 → OneDecimal (format_bytes n) "KB") ∧
    (1024 ^ 2 ≤ n → n < 1024 ^ 3 → OneDecimal (format_bytes n) "MB") ∧
    (1024 ^ 3 ≤ n → n < 1024 ^ 4 → OneDecimal (format_bytes n) "GB") ∧
    (1024 ^ 4 ≤ n → OneDecimal (format_bytes n) "TB") := by
  refine ⟨fun h0 h1 => ?_, fun hl hu => ?_, fun hl hu => ?_,
    fun hl hu => ?_, fun hl => ?_⟩
  · rw [format_bytes, if_pos h1]
  · rw [format_bytes, if_neg (not_lt.mpr hl), if_pos hu]
    exact oneDecimal_fmt1 n.toNat 1024 "KB"
  · rw [format_bytes, if_neg (not_lt.mpr (le_trans (by norm_num) hl)),
      if_neg (not_lt.mpr hl), if_pos hu]
    exact oneDecimal_fmt1 n.toNat (1024 ^ 2) "MB"
  · rw [format_bytes, if_neg (not_lt.mpr (le_trans (by norm_num) hl)),
      if_neg (not_lt.mpr (le_trans (by norm_num) hl)),
      if_neg (not_lt.mpr hl), if_pos hu]
    exact oneDecimal_fmt1 n.toNat (1024 ^ 3) "GB"
  · rw [format_bytes, if_neg (not_lt.mpr (le_trans (by norm_num) hl)),
      if_neg (not_lt.mpr (le_trans (by norm_num) hl)),
      if_neg (not_lt.mpr (le_trans (by norm_num) hl)),
      if_neg (not_lt.mpr hl)]
    exact oneDecimal_fmt1 n.toNat (1024 ^ 4) "TB"

/-- Witness for C7 at concrete inputs in the `B` and `KB` ranges. -/
theorem format_bytes_units_witness :
    format_bytes 500 = toString (500 : Int) ++ " B" ∧
    OneDecimal (format_bytes 1536) "KB" :=
  ⟨(format_bytes_units 500).1 (by norm_num) (by norm_num),
   (format_bytes_units 1536).2.1 (by norm_num) (by norm_num)⟩

/-- C8: every `DiskUsage` record returned by `get_disk_usage` satisfies
`used + available = total`, and its `usage_percent` equals
`used / total * 100` when `total > 0` and `0` when `total = 0`. -/
theorem get_disk_usage_invariants (include_network : Bool)
    (partitions : List Partition)
    (disk_usage_fn : String → Option (Nat × Nat)) (du : DiskUsage)
    (hmem : du ∈ get_disk_usage include_network partitions disk_usage_fn) :
    du.used_bytes + du.available_bytes = du.total_bytes ∧
    (0 < du.total_bytes →
      du.usage_percent =
        (du.used_bytes : Rat) / (du.total_bytes : Rat) * 100) ∧
    (du.total_bytes = 0 → du.usage_percent = 0) := by
  rw [get_disk_usage, List.mem_filterMap] at hmem
  obtain ⟨p, -, hf⟩ := hmem
  simp only at hf
  split at hf
  · exact absurd hf (by simp)
  split at hf
  · exact absurd hf (by simp)
  split at hf
  · exact absurd hf (by simp)
  next total_bytes free_bytes heq =>
    rw [Option.some_inj] at hf
    subst hf
    refine ⟨by push_cast; ring, fun hpos => ?_, fun h0 => ?_⟩
    · have hpos' : (0 : Int) < (total_bytes : Int) := hpos
      have ht : 0 < total_bytes := by exact_mod_cast hpos'
      simp only [ht, if_true]
      push_cast
      ring
    · have h0' : (total_bytes : Int) = 0 := h0
      have ht : total_bytes = 0 := by exact_mod_cast h0'
      subst ht
      norm_num

/-- Witness for C8 on a concrete partition table and space oracle:
total 1000, free 400 gives used 600 and 60 percent. -/
theorem get_disk_usage_invariants_witness :
    DiskUsage.mk "/dev/sda1" "/" 1000 600 400 60 ∈
      get_disk_usage false [Partition.mk "/dev/sda1" "/" "ext4"]
        (fun _ => some (1000, 400)) ∧
    (DiskUsage.mk "/dev/sda1" "/" 1000 600 400 60).used_bytes +
        (DiskUsage.mk "/dev/sda1" "/" 1000 600 400 60).available_bytes =
      (DiskUsage.mk "/dev/sda1" "/" 1000 600 400 60).total_bytes ∧
    (0 < (DiskUsage.mk "/dev/sda1" "/" 1000 600 400 60).total_bytes →
      (DiskUsage.mk "/dev/sda1" "/" 1000 600 400 60).usage_percent =
        ((DiskUsage.mk "/dev/sda1" "/" 1000 600 400 60).used_bytes : Rat) /
          ((DiskUsage.mk "/dev/sda1" "/" 1000 600 400 60).total_bytes :
            Rat) * 100) ∧
    ((DiskUsage.mk "/dev/sda1" "/" 1000 600 400 60).total_bytes = 0 →
      (DiskUsage.mk "/dev/sda1" "/" 1000 600 400 60).usage_percent = 0) := by
  have heval : get_disk_usage false [Partition.mk "/dev/sda1" "/" "ext4"]
      (fun _ => some (1000, 400)) =
      [DiskUsage.mk "/dev/sda1" "/" 1000 600 400 60] := by
    rw [get_disk_usage]
    simp only [List.filterMap, SPECIAL_FS_TYPES, NETWORK_FS_TYPES]
    norm_num [DiskUsage.mk.injEq]
    decide
  have hmem : DiskUsage.mk "/dev/sda1" "/" 1000 600 400 60 ∈
      get_disk_usage false [Partition.mk "/dev/sda1" "/" "ext4"]
        (fun _ => some (1000, 400)) := by
    rw [heval]
    exact List.mem_singleton.mpr rfl
  exact ⟨hmem, get_disk_usage_invariants false
    [Partition.mk "/dev/sda1" "/" "ext4"] (fun _ => some (1000, 400))
    (DiskUsage.mk "/dev/sda1" "/" 1000 600 400 60) hmem⟩

/-- C9: a row rendered without correlated rate data (`io_rates = none`)
has all four rate columns equal to the string `"N/A"` — in particular
none of them is the numeric string `"0.0"`. -/
theorem display_row_na_fields (disk_usage : DiskUsage) :
    (display_row_cells disk_usage none).drop 6 =
      ["N/A", "N/A", "N/A", "N/A"] ∧
    ("N/A" : String) ≠ "0.0" :=
  ⟨rfl, by decide⟩

end DiskMon
